import Mathlib

/-!
Verification of the content-generation backend (`main.py`, `schemas.py`).

The service's core is the `POST /api/generate` handler `generate_content`:
a pydantic-validated request, a deterministic heuristic text composer, a
best-effort persistence write, plus the `GET /api/recent` handler
`recent_generations` with its hardcoded fallback list.

Modelling conventions:
- Python `str` is Lean `String`; Python slicing `text[:n]` is by code
  points, modelled as `String.mk (s.data.take n)`.
- Python `float` fields (`creativity`) are modelled as `ℚ`; the literals
  0.35 and 0.6 are written as exact fractions 7/20 and 3/5.
- Python `int` is `ℤ`; `range(n)` iterates `n.toNat` times.
- The external database module (`create_document`, `get_recent_documents`)
  is not part of this repository's sources; each handler takes the store
  call as an explicit parameter whose result is `Except DBError _`, an
  exception being the `.error` case caught by the handler's `try/except`.
- pydantic request parsing is modelled by `GenerateRequest.validate` on a
  raw record of optional fields: `Field(...)` required fields, defaulted
  fields, and the declared `ge`/`le` bounds; returning `none` models the
  HTTP 422 validation failure.
-/

/-- Error raised by the (external) database layer; the handlers only ever
catch it, never inspect it. -/
abbrev DBError := String

/-- `class GenerateRequest(BaseModel)` from `main.py`, after validation. -/
structure GenerateRequest where
  prompt : String
  tone : String
  sentiment : String
  length : String
  creativity : ℚ
  variants : ℤ
deriving Repr, DecidableEq

/-- A raw (pre-validation) generation request body: `none` marks an absent
field. -/
structure RawGenerateRequest where
  prompt : Option String
  tone : Option String
  sentiment : Option String
  length : Option String
  creativity : Option ℚ
  variants : Option ℤ
deriving Repr

/-- pydantic validation of `GenerateRequest`: `prompt`, `tone`, `sentiment`
are required (`Field(...)`); `length` defaults to "Medium", `creativity`
to 0.35 with `ge=0.0, le=1.0`, `variants` to 1 with `ge=1, le=5`.
`none` models the HTTP 422 response. -/
def GenerateRequest.validate (raw : RawGenerateRequest) : Option GenerateRequest :=
  match raw.prompt, raw.tone, raw.sentiment with
  | some prompt, some tone, some sentiment =>
    let length := raw.length.getD "Medium"
    let creativity := raw.creativity.getD (7/20)
    let variants := raw.variants.getD 1
    if 0 ≤ creativity ∧ creativity ≤ 1 ∧ 1 ≤ variants ∧ variants ≤ 5 then
      some ⟨prompt, tone, sentiment, length, creativity, variants⟩
    else
      none
  | _, _, _ => none

/-- `GenerateResponse` model: `{id: str, outputs: list[str]}`. -/
structure GenerateResponse where
  id : String
  outputs : List String
deriving Repr, DecidableEq

/-- The `tone_voice` dict lookup with its `.get` default (dict lookup is
exact, case-sensitive string equality). -/
def toneVoice (tone : String) : String :=
  if tone = "Professional" then "Polished and concise."
  else if tone = "Playful" then "Light and witty."
  else if tone = "Formal" then "Respectful and structured."
  else if tone = "Casual" then "Friendly and direct."
  else "Confident and clear."

/-- The `sentiment_hint` dict lookup with its `.get` default. -/
def sentimentHint (sentiment : String) : String :=
  if sentiment = "Positive" then "Emphasize benefits and momentum."
  else if sentiment = "Neutral" then "Stay informative and balanced."
  else if sentiment = "Urgent" then "Use action-forward phrasing."
  else "Stay helpful."

/-- The `length_map` dict lookup, defaulting to Medium's `(40, 60)`. -/
def lengthRange (length : String) : ℕ × ℕ :=
  if length = "Short" then (18, 26)
  else if length = "Medium" then (40, 60)
  else if length = "Long" then (80, 120)
  else (40, 60)

/-- Python `str.strip()`: remove leading and trailing whitespace
(code-point level). -/
def pyStrip (s : String) : String :=
  String.mk (((s.data.dropWhile Char.isWhitespace).reverse.dropWhile Char.isWhitespace).reverse)

/-- `base = payload.prompt.strip() or "Your product or idea"`: Python `or`
takes the right operand exactly when the stripped prompt is empty. -/
def baseOf (payload : GenerateRequest) : String :=
  if pyStrip payload.prompt = "" then "Your product or idea" else pyStrip payload.prompt

/-- `guide = f"{payload.tone} • {payload.sentiment} • {payload.length}. {tone_voice} {sentiment_hint}"`. -/
def guideOf (payload : GenerateRequest) : String :=
  payload.tone ++ " • " ++ payload.sentiment ++ " • " ++ payload.length ++ ". "
    ++ toneVoice payload.tone ++ " " ++ sentimentHint payload.sentiment

/-- `core = f"{base} — crafted with ContentForge to help you move faster."`. -/
def coreOf (payload : GenerateRequest) : String :=
  baseOf payload ++ " — crafted with ContentForge to help you move faster."

/-- `exclaim = "!" if payload.sentiment == "Urgent" or payload.creativity > 0.6 else "."`. -/
def exclaimOf (payload : GenerateRequest) : String :=
  if payload.sentiment = "Urgent" ∨ payload.creativity > 3/5 then "!" else "."

/-- `suffix = " Take the next step today" if payload.sentiment == "Urgent" else ""`. -/
def suffixOf (payload : GenerateRequest) : String :=
  if payload.sentiment = "Urgent" then " Take the next step today" else ""

/-- `text = f"{core} {guide}{exclaim}{suffix}"` — the assembled per-variant
text before word-count padding and character truncation. -/
def variantText (payload : GenerateRequest) : String :=
  coreOf payload ++ " " ++ guideOf payload ++ exclaimOf payload ++ suffixOf payload

/-- Python `str.split()` with no separator on a list of characters: split
on runs of whitespace, with no empty words. -/
def wordsAux : List Char → List Char → List String
  | [], acc => if acc.isEmpty then [] else [String.mk acc.reverse]
  | c :: cs, acc =>
    if c.isWhitespace then
      if acc.isEmpty then wordsAux cs []
      else String.mk acc.reverse :: wordsAux cs []
    else wordsAux cs (c :: acc)

/-- `text.split()` — Python whitespace word splitting. -/
def pyWords (s : String) : List String :=
  wordsAux s.data []

/-- The fixed 5-item filler phrase list used for word-count padding. -/
def fillerPhrases : List String :=
  ["Learn more.", "Discover why.", "Built for teams.", "Effortless.", "Reliable."]

/-- The padding step:
`if len(text.split()) < min_len: text = text + " " + " ".join(filler[: max(0, min_len - len(text.split()))])`.
`ℕ` subtraction is exactly `max(0, min_len - wordCount)`. -/
def variantPadded (payload : GenerateRequest) : String :=
  let text := variantText payload
  let minLen := (lengthRange payload.length).1
  if (pyWords text).length < minLen then
    text ++ " " ++ String.intercalate " "
      (fillerPhrases.take (minLen - (pyWords text).length))
  else
    text

/-- Python code-point slicing `s[:n]`. -/
def pySlice (s : String) (n : ℕ) : String :=
  String.mk (s.data.take n)

/-- `outputs.append(text[: max_len * 2])` — one loop iteration's appended
string (the loop body does not use the index `i`). -/
def variantOutput (payload : GenerateRequest) : String :=
  pySlice (variantPadded payload) ((lengthRange payload.length).2 * 2)

/-- The composer: `for i in range(payload.variants): ... outputs.append(...)`;
the loop index is unused by the body. -/
def composeOutputs (payload : GenerateRequest) : List String :=
  (List.range payload.variants.toNat).map (fun _ => variantOutput payload)

/-- `class Generation(BaseModel)` from `schemas.py`. -/
structure Generation where
  prompt : String
  tone : String
  sentiment : String
  length : String
  creativity : ℚ
  variants : ℤ
  result : Option String
deriving Repr

/-- The `GenerationModel(...)` document built in `generate_content` before
the `create_document` call, with `result="\n\n".join(outputs)`. -/
def generationDoc (payload : GenerateRequest) (outputs : List String) : Generation :=
  { prompt := payload.prompt
    tone := payload.tone
    sentiment := payload.sentiment
    length := payload.length
    creativity := payload.creativity
    variants := payload.variants
    result := some (String.intercalate "\n\n" outputs) }

/-- The `POST /api/generate` handler body after validation: compose the
outputs, attempt the persistence write (`create_document` is the external
store call; `.error` is the raised exception caught by the
`try/except`, which substitutes the sentinel id `"no-db"`), and return
`{"id": inserted_id, "outputs": outputs}`. -/
def generate_content (payload : GenerateRequest)
    (create_document : Generation → Except DBError String) : GenerateResponse :=
  let outputs := composeOutputs payload
  let inserted_id :=
    match create_document (generationDoc payload outputs) with
    | .ok i => i
    | .error _ => "no-db"
  ⟨inserted_id, outputs⟩

/-- The full `POST /api/generate` endpoint: pydantic validation first
(`none` = HTTP 422, the handler body never runs), then `generate_content`. -/
def handleGenerate (raw : RawGenerateRequest)
    (create_document : Generation → Except DBError String) : Option GenerateResponse :=
  (GenerateRequest.validate raw).map (fun payload => generate_content payload create_document)

/-- `RecentItem` response model of `GET /api/recent`. -/
structure RecentItem where
  id : String
  prompt : String
  created_at : Option String
deriving Repr, DecidableEq

/-- A stored generation document as read back from the store: the
store-assigned id (`str(d.get('_id'))`), the optional `prompt` field, and
the optional creation timestamp already rendered to its ISO string. -/
structure StoredDoc where
  docId : String
  prompt : Option String
  created_at : Option String
deriving Repr

/-- The `GET /api/recent` handler: call `get_recent_documents('generation',
limit=limit)` (the external store read; `.error` is the raised exception),
project the documents to `RecentItem`s, and on any exception fall back to
the three hardcoded mock items. -/
def recent_generations (get_recent_documents : ℤ → Except DBError (List StoredDoc))
    (limit : ℤ := 9) : List RecentItem :=
  match get_recent_documents limit with
  | .ok docs => docs.map (fun d => ⟨d.docId, d.prompt.getD "Untitled", d.created_at⟩)
  | .error _ =>
    [⟨"mock-1", "Product Launch Tweet", none⟩,
     ⟨"mock-2", "Feature Update Email", none⟩,
     ⟨"mock-3", "SEO Blog Outline", none⟩]

/-- Substring test (code-point level) used to state claims about output
containment. -/
def strContains (s pat : String) : Bool :=
  (List.range (s.data.length + 1)).any (fun i => pat.data.isPrefixOf (s.data.drop i))

/-- Suffix test (code-point level) used to state claims about terminal
punctuation. -/
def strEndsWith (s pat : String) : Bool :=
  pat.data.isSuffixOf s.data

/-! ### Helper lemmas -/

/-- Every member of the outputs list is the (index-independent) per-variant
string. -/
theorem mem_composeOutputs {payload : GenerateRequest} {t : String}
    (h : t ∈ composeOutputs payload) : t = variantOutput payload := by
  unfold composeOutputs at h
  rw [List.mem_map] at h
  obtain ⟨i, -, rfl⟩ := h
  rfl

/-- Appending on the right preserves having a nonempty character list. -/
theorem data_append_left_ne_nil {s : String} (t : String) (h : s.data ≠ []) :
    (s ++ t).data ≠ [] := by
  rw [String.data_append]
  intro hc
  exact h (List.append_eq_nil.mp hc).1

/-- A slice `s[:n]` of a nonempty string with `n ≠ 0` is nonempty. -/
theorem pySlice_ne_empty {s : String} {n : ℕ} (hs : s.data ≠ []) (hn : n ≠ 0) :
    pySlice s n ≠ "" := by
  unfold pySlice
  intro hc
  have hdata : s.data.take n = [] := congrArg String.data hc
  rcases List.take_eq_nil_iff.mp hdata with h | h
  · exact hn h
  · exact hs h

/-! ### C1 -/

/-- C1: for every valid `GenerateRequest` (variants an integer in [1,5]),
the composer returns an outputs list whose length equals the request's
`variants` field. -/
theorem outputs_length_eq_variants (payload : GenerateRequest)
    (h1 : 1 ≤ payload.variants) (_h5 : payload.variants ≤ 5) :
    ((composeOutputs payload).length : ℤ) = payload.variants := by
  unfold composeOutputs
  rw [List.length_map, List.length_range]
  exact Int.toNat_of_nonneg (le_trans (by norm_num) h1)

/-- Witness for C1 at a concrete request with `variants = 3`. -/
theorem outputs_length_eq_variants_witness :
    ((composeOutputs ⟨"Launch", "Professional", "Positive", "Medium", 7/20, 3⟩).length : ℤ) = 3 :=
  outputs_length_eq_variants ⟨"Launch", "Professional", "Positive", "Medium", 7/20, 3⟩
    (by norm_num) (by norm_num)

/-! ### C3 -/

/-- C3: if the persistence write raises any exception, `generate_content`
still returns successfully, with the sentinel id `"no-db"` and the outputs
exactly the composed outputs. -/
theorem generate_fail_open_on_persist_error (payload : GenerateRequest)
    (create_document : Generation → Except DBError String) (e : DBError)
    (h : create_document (generationDoc payload (composeOutputs payload)) = .error e) :
    generate_content payload create_document = ⟨"no-db", composeOutputs payload⟩ := by
  simp [generate_content, h]

/-- Witness for C3: a store that always raises still yields the composed
outputs with the sentinel id. -/
theorem generate_fail_open_on_persist_error_witness :
    generate_content ⟨"Hi", "Casual", "Neutral", "Medium", 7/20, 1⟩
        (fun _ => .error "db down") =
      ⟨"no-db", composeOutputs ⟨"Hi", "Casual", "Neutral", "Medium", 7/20, 1⟩⟩ :=
  generate_fail_open_on_persist_error _ _ "db down" rfl

/-! ### C4 -/

/-- C4: for every limit (including limits below 3), if the store read
raises any exception, `recent_generations` returns exactly the 3 fallback
items, ids `"mock-1"`, `"mock-2"`, `"mock-3"`, each with no timestamp. -/
theorem recent_fallback_on_store_error
    (get_recent_documents : ℤ → Except DBError (List StoredDoc))
    (limit : ℤ) (e : DBError) (h : get_recent_documents limit = .error e) :
    recent_generations get_recent_documents limit =
      [⟨"mock-1", "Product Launch Tweet", none⟩,
       ⟨"mock-2", "Feature Update Email", none⟩,
       ⟨"mock-3", "SEO Blog Outline", none⟩] ∧
    (recent_generations get_recent_documents limit).length = 3 ∧
    (recent_generations get_recent_documents limit).map RecentItem.id =
      ["mock-1", "mock-2", "mock-3"] ∧
    ∀ item ∈ recent_generations get_recent_documents limit, item.created_at = none := by
  have hr : recent_generations get_recent_documents limit =
      [⟨"mock-1", "Product Launch Tweet", none⟩,
       ⟨"mock-2", "Feature Update Email", none⟩,
       ⟨"mock-3", "SEO Blog Outline", none⟩] := by
    unfold recent_generations
    rw [h]
  refine ⟨hr, by rw [hr]; rfl, by rw [hr]; rfl, ?_⟩
  rw [hr]
  intro item hitem
  simp only [List.mem_cons, List.not_mem_nil, or_false] at hitem
  rcases hitem with rfl | rfl | rfl <;> rfl

/-- Witness for C4 at `limit = 1` (smaller than 3) with a store that
always raises. -/
theorem recent_fallback_on_store_error_witness :
    recent_generations (fun _ => .error "unreachable") 1 =
      [⟨"mock-1", "Product Launch Tweet", none⟩,
       ⟨"mock-2", "Feature Update Email", none⟩,
       ⟨"mock-3", "SEO Blog Outline", none⟩] :=
  (recent_fallback_on_store_error (fun _ => .error "unreachable") 1 "unreachable" rfl).1

/-! ### C5 -/

/-- C5: the composer is a pure deterministic function of the request
fields, and within one invocation all variants are textually identical
(the loop index never varies the text). -/
theorem composer_deterministic_variants_identical (p q : GenerateRequest)
    (h1 : p.prompt = q.prompt) (h2 : p.tone = q.tone) (h3 : p.sentiment = q.sentiment)
    (h4 : p.length = q.length) (h5 : p.creativity = q.creativity)
    (h6 : p.variants = q.variants) :
    composeOutputs p = composeOutputs q ∧
    ∀ a ∈ composeOutputs p, ∀ b ∈ composeOutputs p, a = b := by
  have hpq : p = q := by
    cases p; cases q; simp_all
  subst hpq
  refine ⟨rfl, ?_⟩
  intro a ha b hb
  rw [mem_composeOutputs ha, mem_composeOutputs hb]

/-- Witness for C5 at a concrete request with 4 variants. -/
theorem composer_deterministic_variants_identical_witness :
    composeOutputs ⟨"Ad", "Playful", "Positive", "Short", 1/2, 4⟩ =
      composeOutputs ⟨"Ad", "Playful", "Positive", "Short", 1/2, 4⟩ ∧
    ∀ a ∈ composeOutputs ⟨"Ad", "Playful", "Positive", "Short", 1/2, 4⟩,
      ∀ b ∈ composeOutputs ⟨"Ad", "Playful", "Positive", "Short", 1/2, 4⟩, a = b :=
  composer_deterministic_variants_identical _ _ rfl rfl rfl rfl rfl rfl

/-! ### C2 -/

/-- C2: an out-of-range `creativity` or `variants` value makes validation
fail (HTTP 422) and the endpoint never runs the composer; any request that
passes validation satisfies both range constraints; and conversely a
request with the required fields present whose (defaulted) `creativity`
lies in [0, 1] and whose (defaulted) `variants` lies in [1, 5] passes
validation, with exactly those field values. -/
theorem validate_range_constraints (raw : RawGenerateRequest) :
    (∀ c : ℚ, raw.creativity = some c → (c < 0 ∨ 1 < c) →
      GenerateRequest.validate raw = none ∧
      ∀ cd, handleGenerate raw cd = none) ∧
    (∀ v : ℤ, raw.variants = some v → (v < 1 ∨ 5 < v) →
      GenerateRequest.validate raw = none ∧
      ∀ cd, handleGenerate raw cd = none) ∧
    (∀ p, GenerateRequest.validate raw = some p →
      0 ≤ p.creativity ∧ p.creativity ≤ 1 ∧ 1 ≤ p.variants ∧ p.variants ≤ 5) ∧
    (∀ pr t s, raw.prompt = some pr → raw.tone = some t → raw.sentiment = some s →
      0 ≤ raw.creativity.getD (7/20) → raw.creativity.getD (7/20) ≤ 1 →
      1 ≤ raw.variants.getD 1 → raw.variants.getD 1 ≤ 5 →
      GenerateRequest.validate raw =
        some ⟨pr, t, s, raw.length.getD "Medium",
          raw.creativity.getD (7/20), raw.variants.getD 1⟩) := by
  obtain ⟨op, ot, os, ol, oc, ov⟩ := raw
  refine ⟨?_, ?_, ?_, ?_⟩
  · rintro c rfl hout
    have hv : GenerateRequest.validate ⟨op, ot, os, ol, some c, ov⟩ = none := by
      cases op with
      | none => rfl
      | some pr =>
        cases ot with
        | none => rfl
        | some t =>
          cases os with
          | none => rfl
          | some s =>
            have hnot : ¬(0 ≤ c ∧ c ≤ 1 ∧ 1 ≤ ov.getD 1 ∧ ov.getD 1 ≤ 5) := by
              rintro ⟨h0, h1, -, -⟩
              rcases hout with h | h
              · exact absurd h0 (not_le.mpr h)
              · exact absurd h1 (not_le.mpr h)
            simp [GenerateRequest.validate, hnot]
    exact ⟨hv, fun cd => by simp [handleGenerate, hv]⟩
  · rintro v rfl hout
    have hv : GenerateRequest.validate ⟨op, ot, os, ol, oc, some v⟩ = none := by
      cases op with
      | none => rfl
      | some pr =>
        cases ot with
        | none => rfl
        | some t =>
          cases os with
          | none => rfl
          | some s =>
            have hnot : ¬(0 ≤ oc.getD (7/20) ∧ oc.getD (7/20) ≤ 1 ∧ 1 ≤ v ∧ v ≤ 5) := by
              rintro ⟨-, -, h1, h5⟩
              rcases hout with h | h <;> omega
            simp [GenerateRequest.validate, hnot]
    exact ⟨hv, fun cd => by simp [handleGenerate, hv]⟩
  · intro p hp2
    cases op with
    | none => simp [GenerateRequest.validate] at hp2
    | some pr =>
      cases ot with
      | none => simp [GenerateRequest.validate] at hp2
      | some t =>
        cases os with
        | none => simp [GenerateRequest.validate] at hp2
        | some s =>
          by_cases hcond :
              0 ≤ oc.getD (7/20) ∧ oc.getD (7/20) ≤ 1 ∧ 1 ≤ ov.getD 1 ∧ ov.getD 1 ≤ 5
          · simp only [GenerateRequest.validate] at hp2
            rw [if_pos hcond] at hp2
            injection hp2 with hp2
            rw [← hp2]
            exact ⟨hcond.1, hcond.2.1, hcond.2.2.1, hcond.2.2.2⟩
          · simp [GenerateRequest.validate, hcond] at hp2
  · rintro pr t s rfl rfl rfl h0 h1 hv1 hv5
    simp only [GenerateRequest.validate]
    rw [if_pos ⟨h0, h1, hv1, hv5⟩]

/-- Witness for C2: a creativity of 2 is rejected, a variants of 9 is
rejected, a request passing validation satisfies the bounds, and the
boundary values creativity 0 or 1 and variants 1 or 5 are accepted. -/
theorem validate_range_constraints_witness :
    GenerateRequest.validate ⟨some "p", some "t", some "s", none, some 2, none⟩ = none ∧
    GenerateRequest.validate ⟨some "p", some "t", some "s", none, none, some 9⟩ = none ∧
    (0 ≤ (7/20 : ℚ) ∧ (7/20 : ℚ) ≤ 1 ∧ 1 ≤ (1 : ℤ) ∧ (1 : ℤ) ≤ 5) ∧
    GenerateRequest.validate ⟨some "p", some "t", some "s", none, some 0, some 1⟩ =
      some ⟨"p", "t", "s", "Medium", 0, 1⟩ ∧
    GenerateRequest.validate ⟨some "p", some "t", some "s", none, some 1, some 5⟩ =
      some ⟨"p", "t", "s", "Medium", 1, 5⟩ :=
  ⟨((validate_range_constraints ⟨some "p", some "t", some "s", none, some 2, none⟩).1
      2 rfl (Or.inr (by norm_num))).1,
   ((validate_range_constraints ⟨some "p", some "t", some "s", none, none, some 9⟩).2.1
      9 rfl (Or.inr (by norm_num))).1,
   (validate_range_constraints ⟨some "p", some "t", some "s", none, none, none⟩).2.2.1
      ⟨"p", "t", "s", "Medium", 7/20, 1⟩ (by simp [GenerateRequest.validate]; norm_num),
   (validate_range_constraints ⟨some "p", some "t", some "s", none, some 0, some 1⟩).2.2.2
      "p" "t" "s" rfl rfl rfl (by norm_num) (by norm_num) (by norm_num) (by norm_num),
   (validate_range_constraints ⟨some "p", some "t", some "s", none, some 1, some 5⟩).2.2.2
      "p" "t" "s" rfl rfl rfl (by norm_num) (by norm_num) (by norm_num) (by norm_num)⟩

/-! ### C8 -/

/-- C8: padding appends `min(min_len − wordCount, 5)` filler phrases from
the fixed 5-item list, in order, when the word count is below `min_len`,
and nothing otherwise — padding never exceeds the 5-item list. -/
theorem padding_uses_at_most_five_fillers (payload : GenerateRequest) :
    variantPadded payload =
      (if (pyWords (variantText payload)).length < (lengthRange payload.length).1 then
        variantText payload ++ " " ++ String.intercalate " "
          (fillerPhrases.take
            (min ((lengthRange payload.length).1 - (pyWords (variantText payload)).length) 5))
      else variantText payload) ∧
    ∀ k : ℕ, (fillerPhrases.take k).length = min k 5 := by
  constructor
  · have htake : ∀ d : ℕ, fillerPhrases.take d = fillerPhrases.take (min d 5) := by
      intro d
      rcases le_total d 5 with h | h
      · rw [min_eq_left h]
      · rw [min_eq_right h, List.take_of_length_le (by simp [fillerPhrases]; omega),
          List.take_of_length_le (by simp [fillerPhrases])]
    simp only [variantPadded]
    rw [htake]
  · intro k
    rw [List.length_take]
    rfl

/-! ### C9 -/

/-- C9: when the prompt is empty or whitespace-only, the base resolves to
the fixed placeholder, and every output string is non-empty. -/
theorem empty_prompt_placeholder_and_nonempty_outputs (payload : GenerateRequest)
    (h : pyStrip payload.prompt = "") :
    baseOf payload = "Your product or idea" ∧
    ∀ t ∈ composeOutputs payload, t ≠ "" := by
  have hbase : baseOf payload = "Your product or idea" := by rw [baseOf, if_pos h]
  refine ⟨hbase, ?_⟩
  intro t ht
  rw [mem_composeOutputs ht]
  unfold variantOutput
  apply pySlice_ne_empty
  · have htext : (variantText payload).data ≠ [] := by
      unfold variantText coreOf
      apply data_append_left_ne_nil
      apply data_append_left_ne_nil
      apply data_append_left_ne_nil
      apply data_append_left_ne_nil
      apply data_append_left_ne_nil
      rw [hbase]
      simp
    simp only [variantPadded]
    split
    · apply data_append_left_ne_nil
      apply data_append_left_ne_nil
      exact htext
    · exact htext
  · have h26 : 26 ≤ (lengthRange payload.length).2 := by
      unfold lengthRange
      split_ifs <;> norm_num
    omega

/-- Witness for C9 at an empty-string prompt. -/
theorem empty_prompt_placeholder_and_nonempty_outputs_witness :
    baseOf ⟨"", "Casual", "Neutral", "Medium", 7/20, 2⟩ = "Your product or idea" ∧
    ∀ t ∈ composeOutputs ⟨"", "Casual", "Neutral", "Medium", 7/20, 2⟩, t ≠ "" :=
  empty_prompt_placeholder_and_nonempty_outputs ⟨"", "Casual", "Neutral", "Medium", 7/20, 2⟩
    (by decide)

/-! ### C10 -/

/-- C10 counterexample: a raw request whose `prompt`, `tone` and
`sentiment` are all the empty string passes validation — there is no
string non-emptiness check. -/
theorem empty_strings_pass_validation_counterexample :
    GenerateRequest.validate ⟨some "", some "", some "", none, none, none⟩ =
      some ⟨"", "", "", "Medium", 7/20, 1⟩ := by
  simp [GenerateRequest.validate]
  norm_num

/-- C10 (amended): the validator enforces presence of `prompt`, `tone` and
`sentiment` (absence fails with HTTP 422) and the numeric bounds, but not
string non-emptiness: any present string values, empty strings included,
are accepted verbatim. -/
theorem validator_checks_presence_not_nonemptiness (p t s : String) :
    GenerateRequest.validate ⟨some p, some t, some s, none, none, none⟩ =
      some ⟨p, t, s, "Medium", 7/20, 1⟩ ∧
    (∀ ot os ol oc ov, GenerateRequest.validate ⟨none, ot, os, ol, oc, ov⟩ = none) ∧
    (∀ op os ol oc ov, GenerateRequest.validate ⟨op, none, os, ol, oc, ov⟩ = none) ∧
    (∀ op ot ol oc ov, GenerateRequest.validate ⟨op, ot, none, ol, oc, ov⟩ = none) := by
  refine ⟨?_, ?_, ?_, ?_⟩
  · simp [GenerateRequest.validate]
    norm_num
  · intro ot os ol oc ov
    cases ot <;> cases os <;> rfl
  · intro op os ol oc ov
    cases op <;> cases os <;> rfl
  · intro op ot ol oc ov
    cases op <;> cases ot <;> rfl

/-! ### C6 -/

/-- C6 counterexample: at the valid request (prompt "X", tone
"Professional", sentiment "Urgent", length "Short", creativity 7/20, one
variant) the single output is the assembled text cut at `26 * 2 = 52`
characters, which ends mid-word in the core: it does not end with "!"
and does not contain the call-to-action suffix. -/
theorem short_urgent_output_counterexample :
    (0 ≤ (7/20 : ℚ) ∧ (7/20 : ℚ) ≤ 1 ∧ 1 ≤ (1 : ℤ) ∧ (1 : ℤ) ≤ 5) ∧
    composeOutputs ⟨"X", "Professional", "Urgent", "Short", 7/20, 1⟩ =
      ["X — crafted with ContentForge to help you move faste"] ∧
    strEndsWith "X — crafted with ContentForge to help you move faste" "!" = false ∧
    strContains "X — crafted with ContentForge to help you move faste"
      "Take the next step today" = false := by
  have hex : exclaimOf ⟨"X", "Professional", "Urgent", "Short", 7/20, 1⟩ = "!" := by
    rw [exclaimOf, if_pos]
    exact Or.inl rfl
  have hout : variantOutput ⟨"X", "Professional", "Urgent", "Short", 7/20, 1⟩ =
      "X — crafted with ContentForge to help you move faste" := by
    simp only [variantOutput, variantPadded, variantText, hex]
    decide
  refine ⟨by norm_num, ?_, by decide, by decide⟩
  simp [composeOutputs, hout]

/-- C6 (amended): for tone "Professional", sentiment "Urgent", length
"Short", the tone voice is the Professional phrase, the chosen terminal
punctuation is "!" and the assembled pre-truncation text ends with
"! Take the next step today"; but every emitted output is the padded text
truncated to `26 * 2 = 52` characters, and that truncation coincides with
the first 52 characters of the core (the core alone is longer than 52
characters), so the appended punctuation-and-CTA segment itself never
survives the cut: an output can end with "!" or contain the CTA text only
if the prompt-derived core supplies those characters, and the
counterexample's output has neither. -/
theorem short_urgent_cta_before_truncation (payload : GenerateRequest)
    (ht : payload.tone = "Professional") (hs : payload.sentiment = "Urgent")
    (hl : payload.length = "Short") :
    toneVoice payload.tone = "Polished and concise." ∧
    exclaimOf payload = "!" ∧
    suffixOf payload = " Take the next step today" ∧
    (∃ pre, variantText payload = pre ++ "! Take the next step today") ∧
    ∀ t ∈ composeOutputs payload,
      t = pySlice (variantPadded payload) 52 ∧ t = pySlice (coreOf payload) 52 := by
  have he : exclaimOf payload = "!" := by rw [exclaimOf, if_pos (Or.inl hs)]
  have hsu : suffixOf payload = " Take the next step today" := by rw [suffixOf, if_pos hs]
  have hcore : 52 ≤ (coreOf payload).data.length := by
    have hlit : (" — crafted with ContentForge to help you move faster." : String).data.length
        = 53 := by decide
    unfold coreOf
    rw [String.data_append, List.length_append, hlit]
    omega
  have htextlen : 52 ≤ (variantText payload).data.length := by
    unfold variantText
    rw [String.data_append, String.data_append, String.data_append, String.data_append]
    simp only [List.length_append]
    omega
  have hslice_text : pySlice (variantText payload) 52 = pySlice (coreOf payload) 52 := by
    unfold variantText pySlice
    rw [String.data_append, String.data_append, String.data_append, String.data_append,
      List.append_assoc, List.append_assoc, List.append_assoc,
      List.take_append_of_le_length hcore]
  have hslice_pad : pySlice (variantPadded payload) 52 = pySlice (variantText payload) 52 := by
    simp only [variantPadded]
    split
    · unfold pySlice
      rw [String.data_append, String.data_append, List.append_assoc,
        List.take_append_of_le_length htextlen]
    · rfl
  refine ⟨by rw [toneVoice, if_pos ht], he, hsu,
    ⟨coreOf payload ++ " " ++ guideOf payload, ?_⟩, ?_⟩
  · unfold variantText
    rw [he, hsu, String.append_assoc]
    congr 1
  · intro t htm
    rw [mem_composeOutputs htm]
    have hv : variantOutput payload = pySlice (variantPadded payload) 52 := by
      unfold variantOutput
      rw [hl]
      rfl
    exact ⟨hv, by rw [hv, hslice_pad, hslice_text]⟩

/-- Witness for C6 (amended) at a concrete Professional/Urgent/Short
request. -/
theorem short_urgent_cta_before_truncation_witness :
    toneVoice "Professional" = "Polished and concise." ∧
    exclaimOf ⟨"Hello", "Professional", "Urgent", "Short", 1/2, 2⟩ = "!" ∧
    suffixOf ⟨"Hello", "Professional", "Urgent", "Short", 1/2, 2⟩ =
      " Take the next step today" ∧
    (∃ pre, variantText ⟨"Hello", "Professional", "Urgent", "Short", 1/2, 2⟩ =
      pre ++ "! Take the next step today") ∧
    ∀ t ∈ composeOutputs ⟨"Hello", "Professional", "Urgent", "Short", 1/2, 2⟩,
      t = pySlice (variantPadded ⟨"Hello", "Professional", "Urgent", "Short", 1/2, 2⟩) 52 ∧
      t = pySlice (coreOf ⟨"Hello", "Professional", "Urgent", "Short", 1/2, 2⟩) 52 :=
  short_urgent_cta_before_truncation ⟨"Hello", "Professional", "Urgent", "Short", 1/2, 2⟩
    rfl rfl rfl

/-! ### C7 -/

/-- C7 counterexample: at the valid request (prompt "X", tone "Sarcastic",
sentiment "Bored", length "Short", creativity 7/20, one variant) the single
output is the assembled text cut at 52 characters: it contains neither
default fallback phrase and does not end with ".". -/
theorem unknown_vocab_output_counterexample :
    (0 ≤ (7/20 : ℚ) ∧ (7/20 : ℚ) ≤ 1 ∧ 1 ≤ (1 : ℤ) ∧ (1 : ℤ) ≤ 5) ∧
    composeOutputs ⟨"X", "Sarcastic", "Bored", "Short", 7/20, 1⟩ =
      ["X — crafted with ContentForge to help you move faste"] ∧
    strContains "X — crafted with ContentForge to help you move faste"
      "Confident and clear." = false ∧
    strContains "X — crafted with ContentForge to help you move faste"
      "Stay helpful." = false ∧
    strEndsWith "X — crafted with ContentForge to help you move faste" "." = false := by
  have hex : exclaimOf ⟨"X", "Sarcastic", "Bored", "Short", 7/20, 1⟩ = "." := by
    rw [exclaimOf, if_neg]
    rintro (h | h)
    · exact absurd h (by decide)
    · norm_num at h
  have hout : variantOutput ⟨"X", "Sarcastic", "Bored", "Short", 7/20, 1⟩ =
      "X — crafted with ContentForge to help you move faste" := by
    simp only [variantOutput, variantPadded, variantText, hex]
    decide
  refine ⟨by norm_num, ?_, by decide, by decide, by decide⟩
  simp [composeOutputs, hout]

/-- The two default fallback phrases joined by the format string's space
form one contiguous phrase of the guide text. -/
theorem fallback_phrases_merge (x : String) :
    "Confident and clear." ++ (" " ++ ("Stay helpful." ++ x)) =
    "Confident and clear. Stay helpful." ++ x := by
  rw [← String.append_assoc, ← String.append_assoc]
  rfl

/-- C7 (amended): for a tone outside the four presets and a sentiment
outside the three presets, the composer uses the default fallback phrases
"Confident and clear." and "Stay helpful.", appends no call-to-action
suffix, and chooses terminal punctuation "." unless creativity > 0.6;
the assembled pre-truncation text contains the two fallback phrases
contiguously, and the composer still yields its full outputs list
(unknown vocabulary never causes an error) — but character truncation can
cut the phrases out of the emitted outputs (see the counterexample). -/
theorem unknown_vocab_fallback_before_truncation (payload : GenerateRequest)
    (ht1 : payload.tone ≠ "Professional") (ht2 : payload.tone ≠ "Playful")
    (ht3 : payload.tone ≠ "Formal") (ht4 : payload.tone ≠ "Casual")
    (hs1 : payload.sentiment ≠ "Positive") (hs2 : payload.sentiment ≠ "Neutral")
    (hs3 : payload.sentiment ≠ "Urgent") :
    toneVoice payload.tone = "Confident and clear." ∧
    sentimentHint payload.sentiment = "Stay helpful." ∧
    suffixOf payload = "" ∧
    exclaimOf payload = (if payload.creativity > 3/5 then "!" else ".") ∧
    (∃ pre, variantText payload =
      pre ++ ("Confident and clear. Stay helpful." ++ exclaimOf payload)) ∧
    (composeOutputs payload).length = payload.variants.toNat := by
  have htv : toneVoice payload.tone = "Confident and clear." := by
    rw [toneVoice, if_neg ht1, if_neg ht2, if_neg ht3, if_neg ht4]
  have hsh : sentimentHint payload.sentiment = "Stay helpful." := by
    rw [sentimentHint, if_neg hs1, if_neg hs2, if_neg hs3]
  have hsu : suffixOf payload = "" := by rw [suffixOf, if_neg hs3]
  have hex : exclaimOf payload = (if payload.creativity > 3/5 then "!" else ".") := by
    simp [exclaimOf, hs3]
  refine ⟨htv, hsh, hsu, hex,
    ⟨coreOf payload ++ " " ++ (payload.tone ++ " • " ++ payload.sentiment ++ " • "
      ++ payload.length ++ ". "), ?_⟩, ?_⟩
  · unfold variantText guideOf
    rw [htv, hsh, hsu, String.append_empty]
    simp only [String.append_assoc]
    rw [fallback_phrases_merge]
  · unfold composeOutputs
    rw [List.length_map, List.length_range]

/-- Witness for C7 (amended) at a concrete unknown-vocabulary request. -/
theorem unknown_vocab_fallback_before_truncation_witness :
    toneVoice "Sarcastic" = "Confident and clear." ∧
    sentimentHint "Bored" = "Stay helpful." ∧
    suffixOf ⟨"X", "Sarcastic", "Bored", "Medium", 7/20, 2⟩ = "" ∧
    exclaimOf ⟨"X", "Sarcastic", "Bored", "Medium", 7/20, 2⟩ =
      (if (7/20 : ℚ) > 3/5 then "!" else ".") ∧
    (∃ pre, variantText ⟨"X", "Sarcastic", "Bored", "Medium", 7/20, 2⟩ =
      pre ++ ("Confident and clear. Stay helpful." ++
        exclaimOf ⟨"X", "Sarcastic", "Bored", "Medium", 7/20, 2⟩)) ∧
    (composeOutputs ⟨"X", "Sarcastic", "Bored", "Medium", 7/20, 2⟩).length =
      (2 : ℤ).toNat :=
  unknown_vocab_fallback_before_truncation ⟨"X", "Sarcastic", "Bored", "Medium", 7/20, 2⟩
    (by decide) (by decide) (by decide) (by decide) (by decide) (by decide) (by decide)
